import Mathlib

/-!
Shallow embedding of the geometry-tutor application core:
the scene document model and normalizer (src/services/geminiService.ts)
and the project store / orchestrator logic (the main App component).
JS numbers that only ever hold integral values (timestamps, indices,
step numbers) are modelled as Nat or Int; coordinate fields are carried
as Int since no property here inspects them.
-/

namespace Hinhhoc

/-- A point of the scene document (geminiService.ts schema, points items). -/
structure GeoPoint where
  id : String
  x : Int
  y : Int
  z : Int
  label : Option String
  color : Option String
deriving Repr, DecidableEq

/-- An edge of the scene document (geminiService.ts schema, edges items). -/
structure GeoEdge where
  id : String
  from_ : String
  to_ : String
  color : Option String
  label : Option String
  marker : Option String
deriving Repr, DecidableEq

/-- A face of the scene document (geminiService.ts schema, faces items). -/
structure GeoFace where
  id : String
  pointIds : List String
  color : Option String
  opacity : Option Int
deriving Repr, DecidableEq

/-- An angle of the scene document (geminiService.ts schema, angles items). -/
structure GeoAngle where
  id : String
  centerId : String
  arm1Id : String
  arm2Id : String
  type : String
  label : Option String
deriving Repr, DecidableEq

/-- A circle of the scene document (geminiService.ts schema, circles items). -/
structure GeoCircle where
  id : String
  centerId : String
  radius : Int
  color : Option String
  label : Option String
  isDashed : Option Bool
deriving Repr, DecidableEq

/-- A walkthrough step (geminiService.ts schema, steps items). -/
structure GeoStep where
  stepNumber : Int
  description : String
  activeElementIds : List String
deriving Repr, DecidableEq

/-- A guided-reasoning item (geminiService.ts schema, reasoning items). -/
structure ReasoningItem where
  id : String
  question : String
  answer : String
deriving Repr, DecidableEq

/-- The normalized scene document, as built by generateGeometry
(geminiService.ts lines 177-188): every container total, type a string,
message and mathSolution optional. -/
structure GeometryData where
  points : List GeoPoint
  edges : List GeoEdge
  faces : List GeoFace
  angles : List GeoAngle
  circles : List GeoCircle
  steps : List GeoStep
  reasoning : List ReasoningItem
  type : String
  message : Option String
  mathSolution : Option String
deriving Repr, DecidableEq

/-- The raw candidate document as parsed from the service reply
(the value of JSON.parse at geminiService.ts line 175): every field may
be absent. -/
structure RawGeometryData where
  points : Option (List GeoPoint)
  edges : Option (List GeoEdge)
  faces : Option (List GeoFace)
  angles : Option (List GeoAngle)
  circles : Option (List GeoCircle)
  steps : Option (List GeoStep)
  reasoning : Option (List ReasoningItem)
  type : Option String
  message : Option String
  mathSolution : Option String
deriving Repr, DecidableEq

/-- JS logical-or on an optional string value: absent and the empty
string are falsy, any other string is kept. Used for parsed.type and
for data.message fallbacks. -/
def jsStringOr (v : Option String) (d : String) : String :=
  match v with
  | none => d
  | some s => if s = "" then d else s

/-- The success path of generateGeometry (geminiService.ts lines
177-188): each container falls back to the empty list when absent, type
falls back through JS logical-or to the string 2D, message and
mathSolution pass through unchanged. -/
def normalizeGeometry (parsed : RawGeometryData) : GeometryData :=
  { points := parsed.points.getD []
  , edges := parsed.edges.getD []
  , faces := parsed.faces.getD []
  , angles := parsed.angles.getD []
  , circles := parsed.circles.getD []
  , steps := parsed.steps.getD []
  , reasoning := parsed.reasoning.getD []
  , type := jsStringOr parsed.type "2D"
  , message := parsed.message
  , mathSolution := parsed.mathSolution }

/-- A raw document all of whose fields are absent. -/
def rawEmpty : RawGeometryData :=
  ⟨none, none, none, none, none, none, none, none, none, none⟩

/-- A raw document whose type field holds an unrecognized non-empty
string. -/
def rawWith4D : RawGeometryData :=
  ⟨none, none, none, none, none, none, none, some "4D", none, none⟩

/-- A chat message (types used by the App component). -/
structure ChatMessage where
  id : String
  role : String
  text : String
  timestamp : Nat
deriving Repr, DecidableEq

/-- A project session: one scene (or none), one transcript, one playback
cursor. currentStepIndex is an Int because the raw setter stores any JS
number handed to it. -/
structure Project where
  id : String
  name : String
  subjectId : String
  messages : List ChatMessage
  geometryData : Option GeometryData
  currentStepIndex : Int
  lastModified : Nat
deriving Repr, DecidableEq

/-- The welcome message constant DEFAULT_WELCOME_MSG of the App
component; its timestamp slot is refreshed at each use site. -/
def DEFAULT_WELCOME_MSG : ChatMessage :=
  { id := "welcome"
  , role := "model"
  , text := "Chào em! Thầy là trợ lý Toán học. Em có thể chụp ảnh đề bài hoặc nhắn tin để thầy hỗ trợ nhé!"
  , timestamp := 0 }

/-- The store state of the App component: the project list together
with the active-project reference currentProjectId. -/
structure AppState where
  projects : List Project
  currentProjectId : Option String
deriving Repr, DecidableEq

/-- The fields a Partial Project update may carry at the call sites of
updateActiveProject: messages, geometryData, currentStepIndex, name.
A field left at none is absent from the partial record and keeps its
prior value under the JS spread merge. -/
structure ProjectUpdate where
  name : Option String
  messages : Option (List ChatMessage)
  geometryData : Option (Option GeometryData)
  currentStepIndex : Option Int
deriving Repr, DecidableEq

/-- The JS spread merge of updateActiveProject, one project at a time:
present fields of the partial record win, every other field is kept,
and lastModified is stamped last with the current time. -/
def applyUpdate (p : Project) (u : ProjectUpdate) (now : Nat) : Project :=
  { p with
    name := u.name.getD p.name
  , messages := u.messages.getD p.messages
  , geometryData := u.geometryData.getD p.geometryData
  , currentStepIndex := u.currentStepIndex.getD p.currentStepIndex
  , lastModified := now }

/-- The body of updateActiveProject over an explicit target reference:
projects.map over the list, replacing exactly the projects whose id
equals the (non-null) target id. -/
def updateProjectById (ps : List Project) (cid : Option String)
    (u : ProjectUpdate) (now : Nat) : List Project :=
  ps.map fun p =>
    match cid with
    | some c => if p.id = c then applyUpdate p u now else p
    | none => p

/-- updateActiveProject of the App component (lines 67-71): merge the
partial record into the project referenced by currentProjectId and
stamp lastModified. -/
def updateActiveProject (s : AppState) (u : ProjectUpdate) (now : Nat) : AppState :=
  { s with projects := updateProjectById s.projects s.currentProjectId u now }

/-- activeProject of the App component (line 62):
projects.find with p.id equal to currentProjectId. A null
currentProjectId matches no project. -/
def activeProject (s : AppState) : Option Project :=
  match s.currentProjectId with
  | none => none
  | some cid => s.projects.find? fun p => p.id = cid

/-- The messages view of the App component (line 63): the active
project transcript, or the singleton welcome message when no project is
active. -/
def messagesOf (s : AppState) : List ChatMessage :=
  match activeProject s with
  | some p => p.messages
  | none => [DEFAULT_WELCOME_MSG]

/-- createProject of the App component (lines 116-129): build a fresh
project named from the input or a default, seeded with the welcome
message, no scene and cursor 0, prepend it to the project list and make
it active. Every Date.now() of the body is the single instant now. -/
def createProject (s : AppState) (nameInput : Option String) (now : Nat) : AppState :=
  let name := jsStringOr nameInput ("Bài toán " ++ toString (s.projects.length + 1))
  let newProj : Project :=
    { id := toString now
    , name := name
    , subjectId := "math"
    , messages := [{ DEFAULT_WELCOME_MSG with timestamp := now }]
    , geometryData := none
    , currentStepIndex := 0
    , lastModified := now }
  { projects := newProj :: s.projects, currentProjectId := some newProj.id }

/-- deleteProject of the App component (lines 131-138), modelling the
confirmed branch of window.confirm: drop the project from the list, and
only when the deleted project was active and some project remains,
repoint the active reference at the first remaining project. -/
def deleteProject (s : AppState) (id : String) : AppState :=
  let newProjects := s.projects.filter fun p => p.id ≠ id
  let newCurrent :=
    if s.currentProjectId = some id then
      match newProjects with
      | q :: _ => some q.id
      | [] => s.currentProjectId
    else s.currentProjectId
  { projects := newProjects, currentProjectId := newCurrent }

/-- setCurrentProjectId as invoked from the sidebar (line 178): switch
the active reference. -/
def setCurrentProjectId (s : AppState) (id : String) : AppState :=
  { s with currentProjectId := some id }

/-- The setCurrentStepIndex callback handed to ChatInterface (line
232): store the given index verbatim through updateActiveProject, with
no clamping. -/
def setCurrentStepIndex (s : AppState) (idx : Int) (now : Nat) : AppState :=
  updateActiveProject s ⟨none, none, none, some idx⟩ now

/-- The outcome of the awaited generateGeometry call seen by
handleSendMessage: the successfully parsed raw document, or any thrown
failure (missing credential, service error, unparseable reply). -/
inductive GenOutcome where
  | ok (raw : RawGeometryData)
  | err
deriving Repr, DecidableEq

/-- The data handleSendMessage captures in its closure across the
await: the value of currentProjectId at call time and the transcript
with the user message already appended. -/
structure PendingSend where
  capturedId : String
  updatedMessages : List ChatMessage
deriving Repr, DecidableEq

/-- The synchronous prefix of handleSendMessage (lines 140-145): bail
out on a null currentProjectId, otherwise append the user message to
the active project via updateActiveProject and capture the call-time
reference and transcript for the resolution step. -/
def sendPhase1 (s : AppState) (text : String) (t1 : Nat) :
    AppState × Option PendingSend :=
  match s.currentProjectId with
  | none => (s, none)
  | some cid =>
    let userMsg : ChatMessage := ⟨toString t1, "user", text, t1⟩
    let um := messagesOf s ++ [userMsg]
    let u : ProjectUpdate := ⟨none, some um, none, none⟩
    ({ s with projects := updateProjectById s.projects (some cid) u t1 }, some ⟨cid, um⟩)

/-- The model reply text (line 149): data.message under JS logical-or
with the fallback Xong!. -/
def aiReplyText (data : GeometryData) : String :=
  jsStringOr data.message "Xong!"

/-- The partial record handleSendMessage applies when the awaited call
resolves: on success (line 150) the transcript gains the model reply,
the scene is replaced by the normalized document and the cursor is
reset to 0; on failure (line 152) only the failure message is appended. -/
def resolveUpdate (pend : PendingSend) (outcome : GenOutcome) (t2 : Nat) :
    ProjectUpdate :=
  match outcome with
  | GenOutcome.ok raw =>
    let data := normalizeGeometry raw
    ⟨none,
     some (pend.updatedMessages ++ [⟨toString (t2 + 1), "model", aiReplyText data, t2⟩]),
     some (some data),
     some 0⟩
  | GenOutcome.err =>
    ⟨none,
     some (pend.updatedMessages ++ [⟨toString t2, "model", "Lỗi rồi em ạ.", t2⟩]),
     none,
     none⟩

/-- The resolution step of handleSendMessage (lines 147-155): the
closure applies its update through the captured call-time project
reference, against whatever project list the store holds by then. -/
def sendResolve (s : AppState) (pend : PendingSend) (outcome : GenOutcome)
    (t2 : Nat) : AppState :=
  let u := resolveUpdate pend outcome t2
  { s with projects := updateProjectById s.projects (some pend.capturedId) u t2 }

/-- handleSendMessage (lines 140-156) run to completion with no
intervening store activity between the call and its resolution. -/
def handleSendMessage (s : AppState) (text : String) (outcome : GenOutcome)
    (t1 t2 : Nat) : AppState :=
  match sendPhase1 s text t1 with
  | (s1, some pend) => sendResolve s1 pend outcome t2
  | (s1, none) => s1

/-- The user message appended by handleSendMessage (line 142). -/
def userMessage (text : String) (t1 : Nat) : ChatMessage :=
  ⟨toString t1, "user", text, t1⟩

/-- A small concrete project used by the concrete examples below. -/
def mkProj (id : String) (lm : Nat) : Project :=
  { id := id
  , name := id
  , subjectId := "math"
  , messages := []
  , geometryData := none
  , currentStepIndex := 0
  , lastModified := lm }

/-- A store of three projects a, b, c in store order, with a active;
c holds the greatest lastModified. -/
def exStore3 : AppState :=
  AppState.mk [mkProj "a" 1, mkProj "b" 2, mkProj "c" 10] (some "a")

/-- A store holding only the project a, which is active. -/
def exStore1 : AppState :=
  AppState.mk [mkProj "a" 1] (some "a")

/-- A sample partial update carrying a name and a cursor value. -/
def exUpdate : ProjectUpdate :=
  ProjectUpdate.mk (some "x") none none (some 5)

/-- A three-step scene used by the playback-cursor examples. -/
def exScene3 : GeometryData :=
  ⟨[], [], [], [], [],
   [⟨1, "b1", []⟩, ⟨2, "b2", []⟩, ⟨3, "b3", []⟩],
   [], "2D", none, none⟩

/-- A project holding the three-step scene, active in its store. -/
def exProjSteps : Project :=
  { id := "s"
  , name := "s"
  , subjectId := "math"
  , messages := []
  , geometryData := some exScene3
  , currentStepIndex := 0
  , lastModified := 1 }

/-- Store whose single active project carries the three-step scene. -/
def exStoreSteps : AppState :=
  AppState.mk [exProjSteps] (some "s")

/-- A project whose cursor sits mid-walkthrough at 7, active in its
store; used to show the reset applies whatever the prior cursor was. -/
def exProjCursor : Project :=
  { exProjSteps with id := "t", currentStepIndex := 7 }

/-- Store whose single active project has cursor 7. -/
def exStoreCursor : AppState :=
  AppState.mk [exProjCursor] (some "t")

/-- The merge never touches the project id. -/
@[simp] theorem applyUpdate_id (p : Project) (u : ProjectUpdate) (now : Nat) :
    (applyUpdate p u now).id = p.id := rfl

/-- The merge never touches subjectId. -/
@[simp] theorem applyUpdate_subjectId (p : Project) (u : ProjectUpdate) (now : Nat) :
    (applyUpdate p u now).subjectId = p.subjectId := rfl

/-- The merge always stamps lastModified with the given instant. -/
@[simp] theorem applyUpdate_lastModified (p : Project) (u : ProjectUpdate) (now : Nat) :
    (applyUpdate p u now).lastModified = now := rfl

/-- A null target reference makes updateProjectById the identity. -/
@[simp] theorem updateProjectById_none (ps : List Project)
    (u : ProjectUpdate) (now : Nat) :
    updateProjectById ps none u now = ps := by
  simp [updateProjectById]

/-- Unpacking a successful activeProject lookup: the reference is the
found project id and the find succeeds against that id. -/
theorem activeProject_eq_some (s : AppState) (p : Project)
    (h : activeProject s = some p) :
    s.currentProjectId = some p.id ∧
    (s.projects.find? fun q => q.id = p.id) = some p := by
  unfold activeProject at h
  match hc : s.currentProjectId with
  | none => rw [hc] at h; simp at h
  | some cid =>
    rw [hc] at h
    have hpc : p.id = cid := by
      have hmem := List.find?_some h
      simpa using hmem
    subst hpc
    exact ⟨rfl, h⟩

/-- Updating through a target reference rewrites exactly the project
the find against that reference returns, by the merge. -/
theorem find?_updateProjectById_hit (ps : List Project) (c : String)
    (p : Project) (u : ProjectUpdate) (now : Nat)
    (h : (ps.find? fun q => q.id = c) = some p) :
    ((updateProjectById ps (some c) u now).find? fun q => q.id = c)
      = some (applyUpdate p u now) := by
  induction ps with
  | nil => simp at h
  | cons a as ih =>
    have hcons : updateProjectById (a :: as) (some c) u now
        = (if a.id = c then applyUpdate a u now else a)
          :: updateProjectById as (some c) u now := rfl
    rw [hcons]
    by_cases hac : a.id = c
    · rw [List.find?_cons_of_pos _ (by simp [hac])] at h
      have h1 : a = p := Option.some.inj h
      subst h1
      rw [if_pos hac]
      exact List.find?_cons_of_pos _ (by simp [hac])
    · rw [List.find?_cons_of_neg _ (by simp [hac])] at h
      rw [if_neg hac]
      rw [List.find?_cons_of_neg _ (by simp [hac])]
      exact ih h

/-- Updating through one target reference leaves the find against any
other id untouched. -/
theorem find?_updateProjectById_miss (ps : List Project) (c : String)
    (u : ProjectUpdate) (now : Nat) (o : String) (ho : o ≠ c) :
    ((updateProjectById ps (some c) u now).find? fun q => q.id = o)
      = ps.find? fun q => q.id = o := by
  induction ps with
  | nil => rfl
  | cons a as ih =>
    have hcons : updateProjectById (a :: as) (some c) u now
        = (if a.id = c then applyUpdate a u now else a)
          :: updateProjectById as (some c) u now := rfl
    rw [hcons]
    by_cases hao : a.id = o
    · have hac : ¬a.id = c := by rw [hao]; exact ho
      rw [if_neg hac]
      rw [List.find?_cons_of_pos _ (by simp [hao]),
        List.find?_cons_of_pos _ (by simp [hao])]
    · by_cases hac : a.id = c
      · rw [if_pos hac]
        rw [List.find?_cons_of_neg _ (by simp [hao]),
          List.find?_cons_of_neg _ (by simp [hao])]
        exact ih
      · rw [if_neg hac]
        rw [List.find?_cons_of_neg _ (by simp [hao]),
          List.find?_cons_of_neg _ (by simp [hao])]
        exact ih

/-- Every project whose id differs from the target reference keeps its
exact position and value under updateProjectById. -/
theorem getElem?_updateProjectById_ne (ps : List Project) (cid : Option String)
    (u : ProjectUpdate) (now : Nat) (i : Nat) (p : Project)
    (hi : ps[i]? = some p) (hne : some p.id ≠ cid) :
    (updateProjectById ps cid u now)[i]? = some p := by
  unfold updateProjectById
  rw [List.getElem?_map, hi]
  match cid with
  | none => rfl
  | some c =>
    have hpc : ¬p.id = c := by
      intro hh
      exact hne (by rw [hh])
    simp [hpc]

/-- The project the target reference names is merged in place under
updateProjectById. -/
theorem getElem?_updateProjectById_eq (ps : List Project) (c : String)
    (u : ProjectUpdate) (now : Nat) (i : Nat) (p : Project)
    (hi : ps[i]? = some p) (hpc : p.id = c) :
    (updateProjectById ps (some c) u now)[i]? = some (applyUpdate p u now) := by
  unfold updateProjectById
  rw [List.getElem?_map, hi]
  simp [hpc]

/-- activeProject over an explicit state literal. -/
theorem activeProject_mk (ps : List Project) (cid : String) :
    activeProject (AppState.mk ps (some cid)) = ps.find? fun p => p.id = cid := rfl

/-- messagesOf collapses to the active project transcript. -/
theorem messagesOf_of_active (s : AppState) (p : Project)
    (hp : activeProject s = some p) : messagesOf s = p.messages := by
  unfold messagesOf
  rw [hp]

/-- activeProject tracks updateActiveProject through the merge. -/
theorem activeProject_updateActiveProject (s : AppState) (p : Project)
    (u : ProjectUpdate) (now : Nat) (hp : activeProject s = some p) :
    activeProject (updateActiveProject s u now) = some (applyUpdate p u now) := by
  obtain ⟨hc, hf⟩ := activeProject_eq_some s p hp
  have h1 : updateActiveProject s u now
      = AppState.mk (updateProjectById s.projects s.currentProjectId u now)
          s.currentProjectId := rfl
  rw [h1, hc, activeProject_mk]
  exact find?_updateProjectById_hit s.projects p.id p u now hf

/-- The synchronous prefix of a send, unfolded when a project reference
is set: the transcript update applied through the call-time reference,
and the captured closure data. -/
theorem sendPhase1_eq (s : AppState) (text : String) (t1 : Nat) (cid : String)
    (hc : s.currentProjectId = some cid) :
    sendPhase1 s text t1
      = (AppState.mk
          (updateProjectById s.projects (some cid)
            (ProjectUpdate.mk none (some (messagesOf s ++ [userMessage text t1]))
              none none) t1)
          s.currentProjectId,
         some (PendingSend.mk cid (messagesOf s ++ [userMessage text t1]))) := by
  unfold sendPhase1
  rw [hc]
  rfl

/-- handleSendMessage unfolded when a project reference is set: the
phase-1 transcript update followed by the captured-reference
resolution. -/
theorem handleSendMessage_eq (s : AppState) (cid : String) (text : String)
    (oc : GenOutcome) (t1 t2 : Nat) (hc : s.currentProjectId = some cid) :
    handleSendMessage s text oc t1 t2
      = sendResolve
          (AppState.mk
            (updateProjectById s.projects (some cid)
              (ProjectUpdate.mk none (some (messagesOf s ++ [userMessage text t1])) none none) t1)
            s.currentProjectId)
          (PendingSend.mk cid (messagesOf s ++ [userMessage text t1])) oc t2 := by
  unfold handleSendMessage sendPhase1
  rw [hc]
  rfl

/-- The active project after a completed handleSendMessage run: the two
merges applied in order to the call-time active project. -/
theorem activeProject_handleSendMessage (s : AppState) (p : Project)
    (text : String) (oc : GenOutcome) (t1 t2 : Nat)
    (hp : activeProject s = some p) :
    activeProject (handleSendMessage s text oc t1 t2)
      = some (applyUpdate
          (applyUpdate p
            (ProjectUpdate.mk none (some (p.messages ++ [userMessage text t1])) none none) t1)
          (resolveUpdate
            (PendingSend.mk p.id (p.messages ++ [userMessage text t1])) oc t2) t2) := by
  obtain ⟨hc, hf⟩ := activeProject_eq_some s p hp
  have hm : messagesOf s = p.messages := messagesOf_of_active s p hp
  rw [handleSendMessage_eq s p.id text oc t1 t2 hc, hm]
  have h2 : ∀ ps1 : List Project, ∀ pend : PendingSend,
      sendResolve (AppState.mk ps1 s.currentProjectId) pend oc t2
        = AppState.mk
            (updateProjectById ps1 (some pend.capturedId) (resolveUpdate pend oc t2) t2)
            s.currentProjectId := fun _ _ => rfl
  rw [h2, hc, activeProject_mk]
  apply find?_updateProjectById_hit
  exact find?_updateProjectById_hit s.projects p.id p _ t1 hf

end Hinhhoc

namespace Hinhhoc

/-- C3 counterexample: a raw document whose type field holds the
unrecognized non-empty string 4D normalizes to a scene whose
dimensionality is 4D, which lies outside the two-element set of 2D and
3D, so an unrecognized value is not defaulted to 2D. -/
theorem C3_counterexample :
    (normalizeGeometry rawWith4D).type = "4D" ∧
    ¬((normalizeGeometry rawWith4D).type = "2D"
      ∨ (normalizeGeometry rawWith4D).type = "3D") := by
  decide

/-- C3 (amended): for every raw candidate document, each of the seven
container fields of the normalized scene equals the corresponding input
container with the empty sequence substituted when the field is absent;
the dimensionality defaults to 2D when the input value is absent or the
empty string, while any non-empty input value — recognized or not — is
passed through verbatim. -/
theorem C3_normalizer_defaults (raw : RawGeometryData) :
    (normalizeGeometry raw).points = raw.points.getD [] ∧
    (normalizeGeometry raw).edges = raw.edges.getD [] ∧
    (normalizeGeometry raw).faces = raw.faces.getD [] ∧
    (normalizeGeometry raw).angles = raw.angles.getD [] ∧
    (normalizeGeometry raw).circles = raw.circles.getD [] ∧
    (normalizeGeometry raw).steps = raw.steps.getD [] ∧
    (normalizeGeometry raw).reasoning = raw.reasoning.getD [] ∧
    ((raw.type = none ∨ raw.type = some "")
      → (normalizeGeometry raw).type = "2D") ∧
    (∀ t, raw.type = some t → t ≠ "" → (normalizeGeometry raw).type = t) := by
  refine ⟨rfl, rfl, rfl, rfl, rfl, rfl, rfl, ?_, ?_⟩
  · rintro (h | h) <;> simp [normalizeGeometry, jsStringOr, h]
  · intro t ht hne
    simp [normalizeGeometry, jsStringOr, ht, hne]

/-- Witness for C3 (amended): the fully absent raw document normalizes
to dimensionality 2D with an empty points container. -/
theorem C3_normalizer_defaults_witness :
    (normalizeGeometry rawEmpty).type = "2D" ∧
    (normalizeGeometry rawEmpty).points = [] :=
  ⟨(C3_normalizer_defaults rawEmpty).2.2.2.2.2.2.2.1 (Or.inl rfl),
   (C3_normalizer_defaults rawEmpty).1⟩

/-- C1 counterexample: deleting the active project a from the store
holding a, b, c repoints the active reference at b, the first remaining
project in store order, whose lastModified is 2, even though the
remaining project c with lastModified 10 is still in the store — so the
reassignment does not pick the most recently modified survivor. -/
theorem C1_counterexample :
    (activeProject (deleteProject exStore3 "a")).map Project.lastModified
      = some 2 ∧
    mkProj "c" 10 ∈ (deleteProject exStore3 "a").projects ∧
    (2 : Nat) < 10 := by
  decide

/-- C1 (amended): when the active project is deleted and at least one
project survives, the active reference is repointed deterministically
at the first remaining project in store order — not at the most
recently modified survivor — and that project is present in the
resulting store, so the reference resolves. -/
theorem C1_delete_reassigns_first (s : AppState) (id : String) (q : Project)
    (rest : List Project) (hact : s.currentProjectId = some id)
    (hfilter : s.projects.filter (fun p => p.id ≠ id) = q :: rest) :
    (deleteProject s id).projects = q :: rest ∧
    (deleteProject s id).currentProjectId = some q.id := by
  simp only [deleteProject]
  rw [hfilter]
  simp [hact]

/-- Witness for C1 (amended): deleting a from the three-project store
leaves b and c and repoints the reference at b. -/
theorem C1_delete_reassigns_first_witness :
    (deleteProject exStore3 "a").projects = [mkProj "b" 2, mkProj "c" 10] ∧
    (deleteProject exStore3 "a").currentProjectId = some (mkProj "b" 2).id :=
  C1_delete_reassigns_first exStore3 "a" (mkProj "b" 2) [mkProj "c" 10]
    rfl (by decide)

/-- C2 counterexample: deleting the only project a empties the store,
but the active reference is not unset — it still holds the deleted id
a. -/
theorem C2_counterexample :
    (deleteProject exStore1 "a").projects = [] ∧
    (deleteProject exStore1 "a").currentProjectId = some "a" := by
  decide

/-- C2 (amended): deleting the only project leaves the store with no
projects while the active reference keeps the deleted id, which then
resolves to no project; a subsequent create yields exactly one project
and that project becomes the active one. -/
theorem C2_delete_last_then_create (s : AppState) (p : Project)
    (hone : s.projects = [p]) (hact : s.currentProjectId = some p.id)
    (nm : Option String) (now : Nat) :
    (deleteProject s p.id).projects = [] ∧
    (deleteProject s p.id).currentProjectId = some p.id ∧
    activeProject (deleteProject s p.id) = none ∧
    ∃ q : Project,
      (createProject (deleteProject s p.id) nm now).projects = [q] ∧
      (createProject (deleteProject s p.id) nm now).currentProjectId
        = some q.id := by
  have hdel : deleteProject s p.id = AppState.mk [] (some p.id) := by
    unfold deleteProject
    rw [hone]
    simp [hact]
  refine ⟨by rw [hdel], by rw [hdel], by rw [hdel]; rfl, ?_⟩
  rw [hdel]
  exact ⟨_, rfl, rfl⟩

/-- Witness for C2 (amended): concrete run on the singleton store. -/
theorem C2_delete_last_then_create_witness :
    (deleteProject exStore1 "a").projects = [] ∧
    (deleteProject exStore1 "a").currentProjectId = some (mkProj "a" 1).id ∧
    activeProject (deleteProject exStore1 "a") = none ∧
    ∃ q : Project,
      (createProject (deleteProject exStore1 "a") none 7).projects = [q] ∧
      (createProject (deleteProject exStore1 "a") none 7).currentProjectId
        = some q.id :=
  C2_delete_last_then_create exStore1 (mkProj "a" 1) rfl rfl none 7

/-- C8 counterexample: with one existing project a in the store, the
project created at instant 7 sits at the head of the project sequence —
the sequence of ids is 7 then a, not the appended order a then 7. -/
theorem C8_counterexample :
    ((createProject exStore1 none 7).projects.map Project.id) = ["7", "a"] ∧
    ((createProject exStore1 none 7).projects.map Project.id)
      ≠ (exStore1.projects.map Project.id) ++ ["7"] := by
  decide

/-- C8 (amended): createProject prepends a new project to the front of
the store project sequence — not to its end — seeded with the fixed
welcome message (timestamp refreshed to the creation instant) as its
only message, no scene and cursor 0, and that new project becomes the
active one. -/
theorem C8_create_prepends (s : AppState) (nameInput : Option String) (now : Nat) :
    ∃ newProj : Project,
      (createProject s nameInput now).projects = newProj :: s.projects ∧
      (createProject s nameInput now).currentProjectId = some newProj.id ∧
      newProj.messages = [{ DEFAULT_WELCOME_MSG with timestamp := now }] ∧
      newProj.geometryData = none ∧
      newProj.currentStepIndex = 0 :=
  ⟨_, rfl, rfl, rfl, rfl, rfl⟩

/-- C9: updateActiveProject merges exactly the present fields of the
partial record into the project the store reference names, stamps that
project with lastModified equal to the current instant, keeps each
absent field and the identity fields unchanged, and leaves every other
project of the sequence exactly in place with its exact prior value. -/
theorem C9_update_merge_frame (s : AppState) (cid : String) (u : ProjectUpdate)
    (now : Nat) (hc : s.currentProjectId = some cid)
    (i : Nat) (p : Project) (hi : s.projects[i]? = some p) :
    (p.id ≠ cid → (updateActiveProject s u now).projects[i]? = some p) ∧
    (p.id = cid →
      (updateActiveProject s u now).projects[i]? = some (applyUpdate p u now) ∧
      (applyUpdate p u now).lastModified = now ∧
      (applyUpdate p u now).id = p.id ∧
      (applyUpdate p u now).subjectId = p.subjectId ∧
      (∀ v, u.name = some v → (applyUpdate p u now).name = v) ∧
      (u.name = none → (applyUpdate p u now).name = p.name) ∧
      (∀ v, u.messages = some v → (applyUpdate p u now).messages = v) ∧
      (u.messages = none → (applyUpdate p u now).messages = p.messages) ∧
      (∀ v, u.geometryData = some v → (applyUpdate p u now).geometryData = v) ∧
      (u.geometryData = none
        → (applyUpdate p u now).geometryData = p.geometryData) ∧
      (∀ v, u.currentStepIndex = some v
        → (applyUpdate p u now).currentStepIndex = v) ∧
      (u.currentStepIndex = none
        → (applyUpdate p u now).currentStepIndex = p.currentStepIndex)) := by
  have hproj : (updateActiveProject s u now).projects
      = updateProjectById s.projects s.currentProjectId u now := rfl
  constructor
  · intro hne
    rw [hproj, hc]
    exact getElem?_updateProjectById_ne s.projects (some cid) u now i p hi
      (by simpa using hne)
  · intro heq
    refine ⟨?_, rfl, rfl, rfl, ?_, ?_, ?_, ?_, ?_, ?_, ?_, ?_⟩
    · rw [hproj, hc]
      exact getElem?_updateProjectById_eq s.projects cid u now i p hi heq
    · intro v hv; simp [applyUpdate, hv]
    · intro hv; simp [applyUpdate, hv]
    · intro v hv; simp [applyUpdate, hv]
    · intro hv; simp [applyUpdate, hv]
    · intro v hv; simp [applyUpdate, hv]
    · intro hv; simp [applyUpdate, hv]
    · intro v hv; simp [applyUpdate, hv]
    · intro hv; simp [applyUpdate, hv]

/-- Witness for C9: on the three-project store the merge lands on the
active project a in place and the bystander project b is untouched. -/
theorem C9_update_merge_frame_witness :
    (updateActiveProject exStore3 exUpdate 5).projects[1]? = some (mkProj "b" 2) ∧
    (updateActiveProject exStore3 exUpdate 5).projects[0]?
      = some (applyUpdate (mkProj "a" 1) exUpdate 5) :=
  ⟨(C9_update_merge_frame exStore3 "a" exUpdate 5 rfl 1 (mkProj "b" 2) rfl).1
      (by decide),
   ((C9_update_merge_frame exStore3 "a" exUpdate 5 rfl 0 (mkProj "a" 1) rfl).2
      rfl).1⟩

/-- C5 counterexample: with a three-step scene active, requesting index
99 stores 99 — not the clamped 2 — and requesting -5 stores -5 — not
the clamped 0. -/
theorem C5_counterexample :
    (activeProject (setCurrentStepIndex exStoreSteps 99 4)).map
        Project.currentStepIndex = some 99 ∧
    (activeProject (setCurrentStepIndex exStoreSteps (-5) 4)).map
        Project.currentStepIndex = some (-5) ∧
    (exProjSteps.geometryData.map fun g => g.steps.length) = some 3 := by
  decide

/-- C5 (amended): the cursor setter stores the requested index into the
active project exactly as given, performing no clamping against the
step range; only the cursor and the lastModified stamp change. -/
theorem C5_goTo_stores_verbatim (s : AppState) (p : Project) (idx : Int)
    (now : Nat) (hp : activeProject s = some p) :
    activeProject (setCurrentStepIndex s idx now)
      = some { p with currentStepIndex := idx, lastModified := now } := by
  have h := activeProject_updateActiveProject s p
    (ProjectUpdate.mk none none none (some idx)) now hp
  exact h

/-- Witness for C5 (amended): index 99 is stored verbatim into the
project carrying the three-step scene. -/
theorem C5_goTo_stores_verbatim_witness :
    activeProject (setCurrentStepIndex exStoreSteps 99 4)
      = some { exProjSteps with currentStepIndex := 99, lastModified := 4 } :=
  C5_goTo_stores_verbatim exStoreSteps exProjSteps 99 4 rfl

/-- C6: whenever a send resolves successfully, the very update that
stores the normalized scene into the project also resets that project
cursor to 0, regardless of the prior cursor value. -/
theorem C6_success_resets_cursor (s : AppState) (p : Project) (text : String)
    (raw : RawGeometryData) (t1 t2 : Nat) (hp : activeProject s = some p) :
    (activeProject (handleSendMessage s text (GenOutcome.ok raw) t1 t2)).map
        Project.currentStepIndex = some 0 ∧
    (activeProject (handleSendMessage s text (GenOutcome.ok raw) t1 t2)).map
        Project.geometryData = some (some (normalizeGeometry raw)) := by
  rw [activeProject_handleSendMessage s p text (GenOutcome.ok raw) t1 t2 hp]
  exact ⟨rfl, rfl⟩

/-- Witness for C6: a successful send on the cursor-7 project stores
the normalized empty document and resets the cursor to 0. -/
theorem C6_success_resets_cursor_witness :
    (activeProject (handleSendMessage exStoreCursor "hi" (GenOutcome.ok rawEmpty)
        1 2)).map Project.currentStepIndex = some 0 ∧
    (activeProject (handleSendMessage exStoreCursor "hi" (GenOutcome.ok rawEmpty)
        1 2)).map Project.geometryData = some (some (normalizeGeometry rawEmpty)) :=
  C6_success_resets_cursor exStoreCursor exProjCursor "hi" rawEmpty 1 2 rfl

/-- C4: a failing send leaves the scene and cursor of the target
project untouched and appends, beyond the user message, exactly one
tutor-facing failure message; a subsequent successful send on the same
project stores exactly the normalized result of the second call and
leaves the transcript carrying the failure message of call 1 followed
by the model reply of call 2, in that order. -/
theorem C4_fail_then_success (s : AppState) (p : Project) (text1 text2 : String)
    (raw : RawGeometryData) (t1 t2 t3 t4 : Nat)
    (hp : activeProject s = some p) :
    (∃ q1 : Project,
      activeProject (handleSendMessage s text1 GenOutcome.err t1 t2) = some q1 ∧
      q1.geometryData = p.geometryData ∧
      q1.currentStepIndex = p.currentStepIndex ∧
      q1.messages = p.messages ++ [userMessage text1 t1,
        ⟨toString t2, "model", "Lỗi rồi em ạ.", t2⟩]) ∧
    (∃ q2 : Project,
      activeProject (handleSendMessage
          (handleSendMessage s text1 GenOutcome.err t1 t2)
          text2 (GenOutcome.ok raw) t3 t4) = some q2 ∧
      q2.geometryData = some (normalizeGeometry raw) ∧
      q2.currentStepIndex = 0 ∧
      q2.messages = p.messages ++ [userMessage text1 t1,
        ⟨toString t2, "model", "Lỗi rồi em ạ.", t2⟩,
        userMessage text2 t3,
        ⟨toString (t4 + 1), "model", aiReplyText (normalizeGeometry raw), t4⟩]) := by
  have h1 := activeProject_handleSendMessage s p text1 GenOutcome.err t1 t2 hp
  refine ⟨⟨_, h1, rfl, rfl, ?_⟩, ?_⟩
  · simp [applyUpdate, resolveUpdate]
  · have h2 := activeProject_handleSendMessage
      (handleSendMessage s text1 GenOutcome.err t1 t2) _ text2
      (GenOutcome.ok raw) t3 t4 h1
    refine ⟨_, h2, rfl, rfl, ?_⟩
    simp [applyUpdate, resolveUpdate]

/-- Witness for C4: the two-call scenario run concretely on the
single-project store ends with the normalized empty document stored. -/
theorem C4_fail_then_success_witness :
    (activeProject (handleSendMessage
        (handleSendMessage exStoreCursor "a" GenOutcome.err 1 2)
        "b" (GenOutcome.ok rawEmpty) 3 4)).map Project.geometryData
      = some (some (normalizeGeometry rawEmpty)) := by
  obtain ⟨-, q2, hq2, hg, -, -⟩ :=
    C4_fail_then_success exStoreCursor exProjCursor "a" "b" rawEmpty 1 2 3 4 rfl
  rw [hq2]
  simpa using hg

/-- C7: when a send resolves after the user has switched the active
reference to a different project, the resolution is applied through the
project id captured at call time: the captured id is the id of the
project that was active at the call, the project that is active at
resolution time keeps exactly the state it had, and the call-time
project receives exactly the resolution merge. -/
theorem C7_resolution_targets_call_time_project (s : AppState) (p : Project)
    (text newActive : String) (oc : GenOutcome) (t1 t2 : Nat)
    (hp : activeProject s = some p) (hne : newActive ≠ p.id) :
    ∀ s1 pend, sendPhase1 s text t1 = (s1, some pend) →
      pend.capturedId = p.id ∧
      ((sendResolve (setCurrentProjectId s1 newActive) pend oc t2).projects.find?
          fun q => q.id = newActive)
        = (s1.projects.find? fun q => q.id = newActive) ∧
      ((sendResolve (setCurrentProjectId s1 newActive) pend oc t2).projects.find?
          fun q => q.id = p.id)
        = some (applyUpdate
            (applyUpdate p
              (ProjectUpdate.mk none (some (p.messages ++ [userMessage text t1]))
                none none) t1)
            (resolveUpdate pend oc t2) t2) := by
  obtain ⟨hc, hf⟩ := activeProject_eq_some s p hp
  have hm : messagesOf s = p.messages := messagesOf_of_active s p hp
  intro s1 pend heq
  rw [sendPhase1_eq s text t1 p.id hc] at heq
  have hs1 : s1 = AppState.mk
      (updateProjectById s.projects (some p.id)
        (ProjectUpdate.mk none (some (messagesOf s ++ [userMessage text t1]))
          none none) t1)
      s.currentProjectId := (congrArg Prod.fst heq).symm
  have hpend : pend = PendingSend.mk p.id (messagesOf s ++ [userMessage text t1]) := by
    have h2 := congrArg Prod.snd heq
    exact (Option.some.inj h2).symm
  subst hs1
  subst hpend
  refine ⟨rfl, ?_, ?_⟩
  · have hres : (sendResolve (setCurrentProjectId
        (AppState.mk (updateProjectById s.projects (some p.id)
          (ProjectUpdate.mk none (some (messagesOf s ++ [userMessage text t1]))
            none none) t1) s.currentProjectId) newActive)
        (PendingSend.mk p.id (messagesOf s ++ [userMessage text t1])) oc t2).projects
      = updateProjectById
          (updateProjectById s.projects (some p.id)
            (ProjectUpdate.mk none (some (messagesOf s ++ [userMessage text t1]))
              none none) t1)
          (some p.id)
          (resolveUpdate (PendingSend.mk p.id (messagesOf s ++ [userMessage text t1])) oc t2)
          t2 := rfl
    rw [hres]
    exact find?_updateProjectById_miss _ p.id _ t2 newActive hne
  · rw [hm]
    apply find?_updateProjectById_hit
    have h3 := find?_updateProjectById_hit s.projects p.id p
      (ProjectUpdate.mk none (some (p.messages ++ [userMessage text t1])) none none)
      t1 hf
    exact h3

/-- Witness for C7: on the three-project store with a active, a failing
resolution arriving after a switch to b leaves b exactly as phase 1
left it. -/
theorem C7_resolution_targets_call_time_project_witness :
    ((sendResolve (setCurrentProjectId (sendPhase1 exStore3 "x" 5).1 "b")
        (PendingSend.mk "a" (messagesOf exStore3 ++ [userMessage "x" 5]))
        GenOutcome.err 6).projects.find? fun q => q.id = "b")
      = ((sendPhase1 exStore3 "x" 5).1.projects.find? fun q => q.id = "b") := by
  have h := C7_resolution_targets_call_time_project exStore3 (mkProj "a" 1)
    "x" "b" GenOutcome.err 5 6 rfl (by decide)
    (sendPhase1 exStore3 "x" 5).1
    (PendingSend.mk "a" (messagesOf exStore3 ++ [userMessage "x" 5])) rfl
  exact h.2.1

/-- C10: the model reply a successful send appends is the last
transcript entry of the updated project; its text is the fixed fallback
Xong! exactly when the normalized scene message is absent or the empty
string, and equals the scene message otherwise. -/
theorem C10_reply_text_fallback (s : AppState) (p : Project) (text : String)
    (raw : RawGeometryData) (t1 t2 : Nat) (hp : activeProject s = some p) :
    ∃ q : Project,
      activeProject (handleSendMessage s text (GenOutcome.ok raw) t1 t2) = some q ∧
      q.messages.getLast? = some ⟨toString (t2 + 1), "model",
        aiReplyText (normalizeGeometry raw), t2⟩ ∧
      (((normalizeGeometry raw).message = none
          ∨ (normalizeGeometry raw).message = some "")
        → aiReplyText (normalizeGeometry raw) = "Xong!") ∧
      (∀ m, (normalizeGeometry raw).message = some m → m ≠ ""
        → aiReplyText (normalizeGeometry raw) = m) := by
  refine ⟨_, activeProject_handleSendMessage s p text (GenOutcome.ok raw) t1 t2 hp,
    ?_, ?_, ?_⟩
  · simp [applyUpdate, resolveUpdate]
  · rintro (h | h) <;> simp [aiReplyText, jsStringOr, h]
  · intro m hm hne
    simp [aiReplyText, jsStringOr, hm, hne]

/-- Witness for C10: the fully absent raw document yields the fallback
reply text Xong!. -/
theorem C10_reply_text_fallback_witness :
    aiReplyText (normalizeGeometry rawEmpty) = "Xong!" := by
  obtain ⟨q, -, -, hfb, -⟩ :=
    C10_reply_text_fallback exStoreCursor exProjCursor "hi" rawEmpty 1 2 rfl
  exact hfb (Or.inl rfl)

end Hinhhoc
